import Mathlib

set_option maxRecDepth 16384

/-!
Shallow embedding of the blood-pressure Telegram bot (`src/main.py`) and
verification of the frozen claims about it.

The embedded parts are:
* the JSON-like values the handler manipulates (Python dict / list / str /
  int / bool / None, as decoded by `json_repair.loads`), together with the
  Python operations the source uses on them (`truthiness`, `dict.get`,
  `==` against a string literal, `int(...)`, `str(...)` inside f-strings);
* `save_reading_to_firestore` (main.py lines 92-111);
* `get_bp_from_image` (main.py lines 52-89), with the external model call
  and the tolerant JSON parse abstracted as parameters;
* the reconciliation block of `image_handler` (main.py lines 144-186) and
  the full `image_handler` control flow (lines 121-186).

External effects (Firestore availability and write success, the network,
the image decode, the model response) are abstracted into explicit
environment records so that every definition is executable.
-/

/-- Python exceptions that the embedded code can raise. -/
inductive PyExc where
  | attributeError
  | valueError
  | typeError
  | networkError
  | imageError
  | jsonError
deriving DecidableEq

/-- JSON-like Python values, as produced by `json_repair.loads`: `None`,
booleans, integers, strings, lists and string-keyed dicts.  JSON object
keys are always strings.  (The claims only involve integer numerics, so
floats are not modelled.) -/
inductive JVal where
  | null
  | bool (b : Bool)
  | num (n : Int)
  | str (s : String)
  | arr (xs : List JVal)
  | obj (kvs : List (String × JVal))

/-- Python truthiness of a value (`if bp_data ...`). -/
def JVal.truthy : JVal → Bool
  | .null => false
  | .bool b => b
  | .num n => n != 0
  | .str s => s != ""
  | .arr xs => !xs.isEmpty
  | .obj kvs => !kvs.isEmpty

/-- Python `x is None` identity test against `None`. -/
def JVal.isNull : JVal → Bool
  | .null => true
  | _ => false

/-- Whether a value is a Python dict. -/
def JVal.isObj : JVal → Bool
  | .obj _ => true
  | _ => false

/-- First-match lookup in a dict association list (Python dict keys are
unique, so first-match agrees with dict lookup). -/
def lookupKey : List (String × JVal) → String → Option JVal
  | [], _ => none
  | (k, v) :: rest, key => if k == key then some v else lookupKey rest key

/-- Python `d.get(key, default)`: returns the default when the key is
absent; raises `AttributeError` when `d` is not a dict. -/
def pyGetD (v : JVal) (key : String) (dflt : JVal) : Except PyExc JVal :=
  match v with
  | .obj kvs =>
    match lookupKey kvs key with
    | some x => .ok x
    | none => .ok dflt
  | _ => .error .attributeError

/-- Python `d.get(key)`, whose default is `None`. -/
def pyGet (v : JVal) (key : String) : Except PyExc JVal :=
  pyGetD v key .null

/-- Models the dict lookup on main.py line 179, whose argument is the
comparison of the string literal status against the string literal
failed: that comparison evaluates to the boolean False, so this is a
dict lookup with the key False.  A dict decoded from JSON has only
string keys, so the lookup always misses and yields the default None;
on a non-dict the attribute access raises. -/
def pyGetFalseKey : JVal → Except PyExc JVal
  | .obj _ => .ok .null
  | _ => .error .attributeError

/-- Python `x == "lit"` for a string literal: true exactly when `x` is the
equal string (`None`, numbers, booleans, lists and dicts all compare
unequal to a string). -/
def pyEqStr : JVal → String → Bool
  | .str s, t => s == t
  | _, _ => false

mutual

/-- Python `repr` of a JSON-decoded value, which is what `str(dict)` uses
for the elements of a dict or list. -/
def JVal.pyRepr : JVal → String
  | .null => "None"
  | .bool true => "True"
  | .bool false => "False"
  | .num n => toString n
  | .str s => "\x27" ++ s ++ "\x27"
  | .arr xs => "[" ++ JVal.pyReprList xs ++ "]"
  | .obj kvs => "\x7b" ++ JVal.pyReprPairs kvs ++ "\x7d"

/-- Comma-separated `repr`s of list elements. -/
def JVal.pyReprList : List JVal → String
  | [] => ""
  | [x] => x.pyRepr
  | x :: y :: rest => x.pyRepr ++ ", " ++ JVal.pyReprList (y :: rest)

/-- Comma-separated `repr`s of dict entries. -/
def JVal.pyReprPairs : List (String × JVal) → String
  | [] => ""
  | [(k, v)] => "\x27" ++ k ++ "\x27: " ++ v.pyRepr
  | (k, v) :: p :: rest =>
    "\x27" ++ k ++ "\x27: " ++ v.pyRepr ++ ", " ++ JVal.pyReprPairs (p :: rest)

end

/-- Python `str(x)` as used by an f-string interpolation: a string renders
as itself, everything else via `repr`. -/
def JVal.pyStr : JVal → String
  | .str s => s
  | v => v.pyRepr

/-- Python `int(x)`: identity on ints, 0/1 on booleans, decimal parse on
strings; raises on `None`, lists and dicts, and on non-numeric strings. -/
def pyInt : JVal → Except PyExc Int
  | .num n => .ok n
  | .bool b => .ok (if b then 1 else 0)
  | .str s =>
    match s.trim.toInt? with
    | some n => .ok n
    | none => .error .valueError
  | _ => .error .typeError

/-- External state of the persistence layer: whether the Firestore client
initialized (`db` is not `None`, main.py lines 40-48) and whether a
`doc_ref.set` write attempt succeeds. -/
structure StoreEnv where
  dbAvailable : Bool
  writeOk : Bool

/-- A persisted reading: the integer fields written by
`save_reading_to_firestore` (the timestamp is server-assigned and not
modelled). -/
structure Reading where
  sbp : Int
  dbp : Int
  hr : Int
deriving DecidableEq

/-- Body of the `try` block of `save_reading_to_firestore` (main.py lines
98-108): evaluates `int(sbp)`, `int(dbp)`, `int(hr)` in order while
building the document, then attempts the store write; any failure
raises. -/
def saveTryBlock (store : StoreEnv) (sbp dbp hr : JVal) : Except PyExc Reading := do
  let s ← pyInt sbp
  let d ← pyInt dbp
  let h ← pyInt hr
  if store.writeOk then pure ⟨s, d, h⟩ else .error .networkError

/-- `save_reading_to_firestore` (main.py lines 92-111): returns `False`
when the client is unavailable; otherwise runs the guarded write and maps
any raised exception to `False`.  The second component is the list of
records actually written (empty or a singleton). -/
def save_reading_to_firestore (store : StoreEnv) (sbp dbp hr : JVal) :
    Bool × List Reading :=
  if !store.dbAvailable then (false, [])
  else
    match saveTryBlock store sbp dbp hr with
    | .ok r => (true, [r])
    | .error _ => (false, [])

/-- Reply text of the unauthorized branch (main.py line 125). -/
def authRejectText : String := "Sorry, you are not authorized to use this bot."

/-- Reply text when the message carries no photo (main.py line 130). -/
def sendImageText : String := "Please send an image file."

/-- Progress acknowledgment sent before processing (main.py line 133). -/
def processingText : String := "Processing your image, please wait... 🤖"

/-- Save-succeeded note (main.py line 165). -/
def savedNote : String := "💾 *Data saved to database.*"

/-- Save-failed note (main.py line 167). -/
def notSavedNote : String := "⚠️ *Could not save data to database.*"

/-- The Complete-branch reply prefix (main.py lines 158-163), interpolating
the three extracted values. -/
def completeText (sbp dbp hr : JVal) : String :=
  "✅ **Blood Pressure Reading Extracted**\n\n🩺 **Systolic (SBP):** " ++ sbp.pyStr ++
  "\n❤️ **Diastolic (DBP):** " ++ dbp.pyStr ++ "\n💓 **Heart Rate (HR):** " ++
  hr.pyStr ++ "\n\n"

/-- Python conditional expressions of main.py lines 169-171: the value
itself when it is not None, the string N/A otherwise. -/
def naText (v : JVal) : String :=
  if !v.isNull then v.pyStr else "N/A"

/-- Not-saved note of the Partial-branch reply (main.py line 177). -/
def notSavedMissingNote : String :=
  "💾 *Not saved to database because some values are missing.*"

/-- The Partial-branch reply (main.py lines 172-178). -/
def incompleteText (sbp dbp hr : JVal) : String :=
  "🟡 **Partial Reading Extracted**\n\n🩺 **Systolic (SBP):** " ++ naText sbp ++
  "\n❤️ **Diastolic (DBP):** " ++ naText dbp ++ "\n💓 **Heart Rate (HR):** " ++
  naText hr ++ "\n\n" ++ notSavedMissingNote

/-- The reply of the (dead) status-failed branch (main.py line 180). -/
def failedText : String :=
  "Sorry, I couldn\x27t read the values. Please try a clearer picture."

/-- The generic fallback reply (main.py line 182), interpolating the raw
`bp_data` payload. -/
def genericText (bp : JVal) : String :=
  "Sorry, something went wrong. Data is " ++ bp.pyStr

/-- Stand-in for `traceback.format_exc()` (main.py line 184): the runtime
traceback text, abstracted to the name of the raised exception. -/
def traceback_format_exc : PyExc → String
  | .attributeError => "Traceback (most recent call last): AttributeError"
  | .valueError => "Traceback (most recent call last): ValueError"
  | .typeError => "Traceback (most recent call last): TypeError"
  | .networkError => "Traceback (most recent call last): NetworkError"
  | .imageError => "Traceback (most recent call last): UnidentifiedImageError"
  | .jsonError => "Traceback (most recent call last): JSONDecodeError"

/-- The diagnostic reply built by the `except` clause (main.py line 184). -/
def errorEncounteredText (e : PyExc) : String :=
  "Error encountered:\n\n" ++ traceback_format_exc e

/-- Outcome of the reconciliation block: the reply text, the list of
argument triples passed to `save_reading_to_firestore` (one entry per
invocation), and the records actually written. -/
structure ReconcileOut where
  reply : String
  saveArgs : List (JVal × JVal × JVal)
  saved : List Reading

/-- The Complete branch (main.py lines 152-167): invokes
`save_reading_to_firestore` once with the three extracted values and
appends the saved / not-saved note to the reply. -/
def completeBranch (store : StoreEnv) (sbp dbp hr : JVal) : ReconcileOut :=
  let res := save_reading_to_firestore store sbp dbp hr
  ⟨completeText sbp dbp hr ++ (if res.1 then savedNote else notSavedNote),
   [(sbp, dbp, hr)], res.2⟩

/-- The `elif`/`else` tail of the reconciliation block (main.py lines
179-182): the elif whose condition conjoins the truthiness of bp_data
with the misplaced-equality lookup `pyGetFalseKey`, followed by the
generic fallback. -/
def reconcileElif (bp : JVal) : Except PyExc ReconcileOut :=
  if bp.truthy then
    match pyGetFalseKey bp with
    | .error e => .error e
    | .ok v =>
      if v.truthy then .ok ⟨failedText, [], []⟩
      else .ok ⟨genericText bp, [], []⟩
  else .ok ⟨genericText bp, [], []⟩

/-- The `try` block of the reconciliation logic (main.py lines 145-182),
with Python exceptions made explicit in the `Except` result. -/
def reconcileTry (store : StoreEnv) (bp : JVal) : Except PyExc ReconcileOut :=
  if bp.truthy then
    match pyGet bp "status" with
    | .error e => .error e
    | .ok st =>
      if pyEqStr st "success" then
        match pyGetD bp "values" (.obj []) with
        | .error e => .error e
        | .ok values =>
          match pyGet values "SBP" with
          | .error e => .error e
          | .ok sbp =>
            match pyGet values "DBP" with
            | .error e => .error e
            | .ok dbp =>
              match pyGet values "HR" with
              | .error e => .error e
              | .ok hr =>
                if !sbp.isNull && !dbp.isNull && !hr.isNull then
                  .ok (completeBranch store sbp dbp hr)
                else
                  .ok ⟨incompleteText sbp dbp hr, [], []⟩
      else reconcileElif bp
  else reconcileElif bp

/-- The whole reconciliation block of `image_handler` (main.py lines
144-186): the `try` body with the `except` clause that turns any raised
exception into the diagnostic traceback reply. -/
def reconcile (store : StoreEnv) (bp : JVal) : ReconcileOut :=
  match reconcileTry store bp with
  | .ok out => out
  | .error e => ⟨errorEncounteredText e, [], []⟩

/-- Abstract outcome of the external vision-model call on an image. -/
inductive ModelOutcome where
  | ok (text : String)
  | callError
  | textError

/-- Abstraction of the downloaded photo bytes: whether `Image.open`
decodes them, and how the model call on the decoded image behaves. -/
structure ImageInput where
  decodable : Bool
  outcome : ModelOutcome

/-- Response cleanup (main.py line 80): strip whitespace and remove the
code-fence markers. -/
def cleanResponse (text : String) : String :=
  ((text.trim).replace "```json" "").replace "```" ""

/-- The error-marker dictionary returned by the `except` clause of
`get_bp_from_image` (main.py line 89). -/
def errorMarker : JVal :=
  .obj [("error", .str "Could not process the image or parse the response.")]

/-- `get_bp_from_image` (main.py lines 52-89).  `Image.open` runs BEFORE
the `try` block (line 70), so undecodable bytes raise to the caller; the
model call, the response-text access and the tolerant JSON parse
(`json_repair.loads`, passed in as `jsonRepairLoads`) run inside the
`try`, whose `except` clause returns the error marker. -/
def get_bp_from_image (img : ImageInput)
    (jsonRepairLoads : String → Except PyExc JVal) : Except PyExc JVal :=
  if !img.decodable then .error .imageError
  else
    match img.outcome with
    | .callError => .ok errorMarker
    | .textError => .ok errorMarker
    | .ok text =>
      match jsonRepairLoads (cleanResponse text) with
      | .ok v => .ok v
      | .error _ => .ok errorMarker

/-- An inbound Telegram update, reduced to what `image_handler` reads:
the chat id and whether the message carries a photo. -/
structure UpdateEv where
  chatId : Int
  hasPhoto : Bool

/-- Environment of one `image_handler` run: the configured user id
(`int(TELEGRAM_USER_ID)`), whether the photo download (main.py lines
136-139) succeeds, the downloaded image with its model outcome, the
tolerant parser, and the store state. -/
structure HandlerEnv where
  authorizedId : Int
  downloadOk : Bool
  image : ImageInput
  jsonRepairLoads : String → Except PyExc JVal
  store : StoreEnv

/-- Observable outcome of one `image_handler` run: messages sent before
the reconciliation block, the final reply sent by the `finally` clause,
the save invocations with their arguments, the records written, how many
times download and extraction were invoked, and the exception escaping
the handler (if any). -/
structure HandlerResult where
  preSent : List String
  replySent : List String
  saveArgs : List (JVal × JVal × JVal)
  saved : List Reading
  downloadCalls : Nat
  extractCalls : Nat
  raised : Option PyExc

/-- `image_handler` (main.py lines 121-186): authorization check, photo
check, progress acknowledgment, photo download, extraction, then the
reconciliation block whose reply is sent in the `finally` clause.  The
download (lines 136-139) and the extraction call (line 142) run before
the `try`, so an exception there escapes the handler and no final reply
is sent. -/
def image_handler (env : HandlerEnv) (ev : UpdateEv) : HandlerResult :=
  if ev.chatId != env.authorizedId then
    ⟨[authRejectText], [], [], [], 0, 0, none⟩
  else if !ev.hasPhoto then
    ⟨[sendImageText], [], [], [], 0, 0, none⟩
  else if !env.downloadOk then
    ⟨[processingText], [], [], [], 1, 0, some .networkError⟩
  else
    match get_bp_from_image env.image env.jsonRepairLoads with
    | .error e => ⟨[processingText], [], [], [], 1, 1, some e⟩
    | .ok bp =>
      let r := reconcile env.store bp
      ⟨[processingText], [r.reply], r.saveArgs, r.saved, 1, 1, none⟩

/-- Substring containment on strings, used to state that a reply lists a
value or contains a phrase. -/
def strContains (s pat : String) : Prop := pat.data <:+: s.data

instance strContainsDec (s pat : String) : Decidable (strContains s pat) :=
  List.decidableInfix pat.data s.data

/-- Splitting a string into prefix, pattern and suffix witnesses
containment of the pattern. -/
theorem strContains_of_split (s a pat b : String) (h : s = a ++ (pat ++ b)) :
    strContains s pat := by
  subst h
  exact ⟨a.data, b.data, by simp [String.data_append]⟩

/-- A save invocation whose boolean result is false wrote no record. -/
theorem save_false_writes_nothing (store : StoreEnv) (x y z : JVal)
    (h : (save_reading_to_firestore store x y z).1 = false) :
    (save_reading_to_firestore store x y z).2 = [] := by
  by_cases hdb : store.dbAvailable = true
  · cases hs : saveTryBlock store x y z with
    | ok r =>
      rw [save_reading_to_firestore, hdb] at h
      simp [hs] at h
    | error e => simp [save_reading_to_firestore, hdb, hs]
  · have hdbf : store.dbAvailable = false := by simpa using hdb
    simp [save_reading_to_firestore, hdbf]

/-- When the image bytes decode, `get_bp_from_image` always returns a
value: every failure inside the guarded region yields the error marker. -/
theorem getBp_ok_of_decodable (img : ImageInput)
    (parse : String → Except PyExc JVal) (hdec : img.decodable = true) :
    ∃ v, get_bp_from_image img parse = Except.ok v := by
  unfold get_bp_from_image
  rw [hdec]
  cases img.outcome with
  | ok text =>
    cases hp : parse (cleanResponse text) with
    | ok v => exact ⟨v, by simp [hp]⟩
    | error e => exact ⟨errorMarker, by simp [hp]⟩
  | callError => exact ⟨errorMarker, by simp⟩
  | textError => exact ⟨errorMarker, by simp⟩

/-- C4: a normalized result with status equal to failed is claimed to take
the distinct Failed branch with the clearer-picture apology.  The code
instead evaluates the elif condition as a lookup with the boolean key
False (the misplaced equality of main.py line 179), which always misses,
so the result falls through to the generic fallback: evaluated at the
status-failed input, the reply is the generic diagnostic message and not
the apology. -/
theorem c4_failed_status_falls_to_generic_fallback :
    (reconcile ⟨true, true⟩
        (JVal.obj [("status", JVal.str "failed"), ("values", JVal.null)])).reply
      = "Sorry, something went wrong. Data is \x7b\x27status\x27: \x27failed\x27, \x27values\x27: None\x7d" ∧
    (reconcile ⟨true, true⟩
        (JVal.obj [("status", JVal.str "failed"), ("values", JVal.null)])).reply
      ≠ failedText ∧
    (reconcile ⟨true, true⟩
        (JVal.obj [("status", JVal.str "failed"), ("values", JVal.null)])).saveArgs = [] :=
  ⟨rfl, by decide, rfl⟩

/-- C5: an inbound photo event whose sender differs from the configured
identity (exact integer equality) gets exactly the fixed rejection text,
and no download, extraction or persistence is ever invoked. -/
theorem c5_unauthorized_fixed_rejection (env : HandlerEnv) (ev : UpdateEv)
    (hne : ev.chatId ≠ env.authorizedId) :
    image_handler env ev = ⟨[authRejectText], [], [], [], 0, 0, none⟩ := by
  simp [image_handler, hne]

/-- Witness for C5 at a concrete unauthorized sender. -/
theorem c5_witness :
    image_handler
        ⟨1, true, ⟨true, ModelOutcome.callError⟩, fun _ => Except.ok JVal.null, ⟨true, true⟩⟩
        ⟨2, true⟩
      = ⟨[authRejectText], [], [], [], 0, 0, none⟩ :=
  c5_unauthorized_fixed_rejection _ _ (by decide)

/-- C7 counterexample: the claim says `get_bp_from_image` never raises for
any byte string, including bytes that are not a supported raster image.
In the code `Image.open` runs before the try block (main.py line 70), so
undecodable bytes raise to the caller. -/
theorem c7_cex_undecodable_bytes_raise :
    get_bp_from_image ⟨false, ModelOutcome.callError⟩ (fun _ => Except.ok JVal.null)
      = Except.error PyExc.imageError := rfl

/-- C7 (amended): `get_bp_from_image` never raises when the image bytes
decode, and each guarded failure mode — the model call raising, the
response text failing to decode, or the tolerant parse raising — returns
exactly the error-marker dictionary.  Undecodable bytes raise, because
the image decode happens before the exception guard. -/
theorem c7_no_raise_when_image_decodes (img : ImageInput)
    (parse : String → Except PyExc JVal) (hdec : img.decodable = true) :
    (img.outcome = ModelOutcome.callError →
      get_bp_from_image img parse = Except.ok errorMarker) ∧
    (img.outcome = ModelOutcome.textError →
      get_bp_from_image img parse = Except.ok errorMarker) ∧
    (∀ text e, img.outcome = ModelOutcome.ok text →
      parse (cleanResponse text) = Except.error e →
      get_bp_from_image img parse = Except.ok errorMarker) ∧
    (∃ v, get_bp_from_image img parse = Except.ok v) := by
  refine ⟨?_, ?_, ?_, getBp_ok_of_decodable img parse hdec⟩
  · intro ho
    simp [get_bp_from_image, hdec, ho]
  · intro ho
    simp [get_bp_from_image, hdec, ho]
  · intro text e ho hp
    simp [get_bp_from_image, hdec, ho, hp]

/-- Witness for C7 at a concrete decodable image whose model call fails:
the result is exactly the error marker, not an exception. -/
theorem c7_witness :
    get_bp_from_image ⟨true, ModelOutcome.callError⟩
        (fun _ => Except.ok JVal.null) = Except.ok errorMarker :=
  (c7_no_raise_when_image_decodes ⟨true, ModelOutcome.callError⟩
    (fun _ => Except.ok JVal.null) rfl).1 rfl

/-- C8: `save_reading_to_firestore` always returns a boolean — true with
exactly the one written record, or false with nothing written: internal
failures (unavailable client, non-integer field, failing store write) are
caught at its boundary and reported as false. -/
theorem c8_save_boolean_no_partial_write (store : StoreEnv) (sbp dbp hr : JVal) :
    (∃ r : Reading, save_reading_to_firestore store sbp dbp hr = (true, [r])) ∨
    save_reading_to_firestore store sbp dbp hr = (false, []) := by
  by_cases hdb : store.dbAvailable = true
  · cases hs : saveTryBlock store sbp dbp hr with
    | ok r => exact Or.inl ⟨r, by simp [save_reading_to_firestore, hdb, hs]⟩
    | error e => exact Or.inr (by simp [save_reading_to_firestore, hdb, hs])
  · have hdbf : store.dbAvailable = false := by simpa using hdb
    exact Or.inr (by simp [save_reading_to_firestore, hdbf])

/-- C10 counterexample: the claim says every non-dict extraction result
makes the reconciliation block raise and reply with the traceback
diagnostic.  A falsy non-dict — the empty string, which is exactly what
the tolerant parser yields for garbage — is Python-falsy, so neither
branch condition evaluates an attribute access: no exception is raised
and the generic fallback reply (without any traceback) is sent. -/
theorem c10_cex_empty_string_generic_not_traceback :
    (reconcile ⟨true, true⟩ (JVal.str "")).reply = genericText (JVal.str "") ∧
    ¬ strContains (reconcile ⟨true, true⟩ (JVal.str "")).reply "Error encountered" ∧
    (reconcile ⟨true, true⟩ (JVal.str "")).saved = [] :=
  ⟨rfl, by decide, rfl⟩

/-- C10 (amended): for a non-dict extraction result the reconciliation
block never persists anything; a truthy non-dict raises AttributeError on
the dict lookup and the except clause replies with the traceback
diagnostic, while a falsy non-dict takes the generic fallback reply. -/
theorem c10_non_dict_reconcile (store : StoreEnv) (bp : JVal)
    (hnd : bp.isObj = false) :
    (reconcile store bp).reply
      = (if bp.truthy then errorEncounteredText PyExc.attributeError
         else genericText bp) ∧
    (reconcile store bp).saveArgs = [] ∧
    (reconcile store bp).saved = [] := by
  cases bp with
  | obj kvs => simp [JVal.isObj] at hnd
  | null => exact ⟨rfl, rfl, rfl⟩
  | bool b => cases b <;> exact ⟨rfl, rfl, rfl⟩
  | num n =>
    cases hn : (JVal.num n).truthy <;>
      refine ⟨?_, ?_, ?_⟩ <;>
        simp [reconcile, reconcileTry, reconcileElif, hn, pyGet, pyGetD]
  | str s =>
    cases hn : (JVal.str s).truthy <;>
      refine ⟨?_, ?_, ?_⟩ <;>
        simp [reconcile, reconcileTry, reconcileElif, hn, pyGet, pyGetD]
  | arr xs =>
    cases hn : (JVal.arr xs).truthy <;>
      refine ⟨?_, ?_, ?_⟩ <;>
        simp [reconcile, reconcileTry, reconcileElif, hn, pyGet, pyGetD]

/-- Witness for C10 at a concrete truthy non-dict result. -/
theorem c10_witness :
    (reconcile ⟨true, true⟩ (JVal.str "x")).reply
      = (if (JVal.str "x").truthy then errorEncounteredText PyExc.attributeError
         else genericText (JVal.str "x")) ∧
    (reconcile ⟨true, true⟩ (JVal.str "x")).saveArgs = [] ∧
    (reconcile ⟨true, true⟩ (JVal.str "x")).saved = [] :=
  c10_non_dict_reconcile _ _ rfl

/-- Splitting the character data of a string into prefix, pattern data
and suffix witnesses containment of the pattern. -/
theorem strContains_of_data_split (s pat : String) (a b : List Char)
    (h : s.data = a ++ (pat.data ++ b)) : strContains s pat :=
  ⟨a, b, by rw [h]; simp⟩

/-- Containment in a string is preserved by appending on the right. -/
theorem strContains_append_right (x y pat : String) (h : strContains x pat) :
    strContains (x ++ y) pat := by
  obtain ⟨a, b, hab⟩ := h
  exact ⟨a, b ++ y.data, by rw [String.data_append, ← hab]; simp⟩

/-- The Complete-branch reply prefix interpolates each of the three
values, so it contains each of their renderings. -/
theorem completeText_lists_values (x y z : JVal) :
    strContains (completeText x y z) x.pyStr ∧
    strContains (completeText x y z) y.pyStr ∧
    strContains (completeText x y z) z.pyStr := by
  refine ⟨?_, ?_, ?_⟩
  · exact strContains_of_split _
      "✅ **Blood Pressure Reading Extracted**\n\n🩺 **Systolic (SBP):** " _
      ("\n❤️ **Diastolic (DBP):** " ++ y.pyStr ++ "\n💓 **Heart Rate (HR):** " ++
        z.pyStr ++ "\n\n")
      (by simp [completeText, String.append_assoc])
  · exact strContains_of_split _
      ("✅ **Blood Pressure Reading Extracted**\n\n🩺 **Systolic (SBP):** " ++
        x.pyStr ++ "\n❤️ **Diastolic (DBP):** ") _
      ("\n💓 **Heart Rate (HR):** " ++ z.pyStr ++ "\n\n")
      (by simp [completeText, String.append_assoc])
  · exact strContains_of_split _
      ("✅ **Blood Pressure Reading Extracted**\n\n🩺 **Systolic (SBP):** " ++
        x.pyStr ++ "\n❤️ **Diastolic (DBP):** " ++ y.pyStr ++
        "\n💓 **Heart Rate (HR):** ") _
      "\n\n"
      (by simp [completeText, String.append_assoc])

/-- C1: for a normalized result with status success and all three of SBP,
DBP, HR present as integers, the reconciliation block reaches Complete:
it invokes `save_reading_to_firestore` exactly once, passing exactly
those three values, the records written are those of that call, and the
reply lists all three values. -/
theorem c1_complete_saves_once_and_lists_values
    (store : StoreEnv) (bp values : JVal) (s d h : Int)
    (hbp : bp.truthy = true)
    (hst : pyGet bp "status" = Except.ok (JVal.str "success"))
    (hv : pyGetD bp "values" (JVal.obj []) = Except.ok values)
    (hs : pyGet values "SBP" = Except.ok (JVal.num s))
    (hd : pyGet values "DBP" = Except.ok (JVal.num d))
    (hh : pyGet values "HR" = Except.ok (JVal.num h)) :
    (reconcile store bp).saveArgs = [(JVal.num s, JVal.num d, JVal.num h)] ∧
    (reconcile store bp).saved
      = (save_reading_to_firestore store (JVal.num s) (JVal.num d) (JVal.num h)).2 ∧
    strContains (reconcile store bp).reply (toString s) ∧
    strContains (reconcile store bp).reply (toString d) ∧
    strContains (reconcile store bp).reply (toString h) := by
  have hrec : reconcile store bp
      = completeBranch store (JVal.num s) (JVal.num d) (JVal.num h) := by
    simp [reconcile, reconcileTry, hbp, hst, hv, hs, hd, hh, pyEqStr, JVal.isNull]
  rw [hrec]
  refine ⟨rfl, rfl, ?_, ?_, ?_⟩
  · exact strContains_append_right _ _ _
      ((completeText_lists_values (JVal.num s) (JVal.num d) (JVal.num h)).1)
  · exact strContains_append_right _ _ _
      ((completeText_lists_values (JVal.num s) (JVal.num d) (JVal.num h)).2.1)
  · exact strContains_append_right _ _ _
      ((completeText_lists_values (JVal.num s) (JVal.num d) (JVal.num h)).2.2)

/-- Witness for C1 at the concrete 120/80/70 success result. -/
theorem c1_witness :
    (reconcile ⟨true, true⟩
        (JVal.obj [("values", JVal.obj [("SBP", JVal.num 120), ("DBP", JVal.num 80),
          ("HR", JVal.num 70)]), ("status", JVal.str "success")])).saveArgs
      = [(JVal.num 120, JVal.num 80, JVal.num 70)] ∧
    (reconcile ⟨true, true⟩
        (JVal.obj [("values", JVal.obj [("SBP", JVal.num 120), ("DBP", JVal.num 80),
          ("HR", JVal.num 70)]), ("status", JVal.str "success")])).saved
      = (save_reading_to_firestore ⟨true, true⟩ (JVal.num 120) (JVal.num 80) (JVal.num 70)).2 ∧
    strContains (reconcile ⟨true, true⟩
        (JVal.obj [("values", JVal.obj [("SBP", JVal.num 120), ("DBP", JVal.num 80),
          ("HR", JVal.num 70)]), ("status", JVal.str "success")])).reply (toString (120 : Int)) ∧
    strContains (reconcile ⟨true, true⟩
        (JVal.obj [("values", JVal.obj [("SBP", JVal.num 120), ("DBP", JVal.num 80),
          ("HR", JVal.num 70)]), ("status", JVal.str "success")])).reply (toString (80 : Int)) ∧
    strContains (reconcile ⟨true, true⟩
        (JVal.obj [("values", JVal.obj [("SBP", JVal.num 120), ("DBP", JVal.num 80),
          ("HR", JVal.num 70)]), ("status", JVal.str "success")])).reply (toString (70 : Int)) :=
  c1_complete_saves_once_and_lists_values ⟨true, true⟩ _ _ 120 80 70
    rfl rfl rfl rfl rfl rfl

/-- C2 counterexample: the claim quantifies over every success result
with a missing field, but when the values field itself is null (all three
fields absent) the code calls a dict method on None, raises
AttributeError, and replies with the traceback diagnostic rather than
reaching Partial. -/
theorem c2_cex_values_null_raises :
    (reconcile ⟨true, true⟩
        (JVal.obj [("status", JVal.str "success"), ("values", JVal.null)])).reply
      = errorEncounteredText PyExc.attributeError ∧
    ¬ strContains (reconcile ⟨true, true⟩
        (JVal.obj [("status", JVal.str "success"), ("values", JVal.null)])).reply
        "Partial Reading Extracted" ∧
    (reconcile ⟨true, true⟩
        (JVal.obj [("status", JVal.str "success"), ("values", JVal.null)])).saveArgs = [] :=
  ⟨rfl, by decide, rfl⟩

/-- C2 (amended): for a success result whose values field is a dict with
at least one of SBP, DBP, HR null or absent, the reconciliation block
reaches Partial: it never invokes persistence and the reply lists the
available values with N/A substituted for missing ones together with the
explicit not-saved note.  (When the values field is null or another
non-dict, the block instead raises and replies with the traceback
diagnostic; it still persists nothing.) -/
theorem c2_partial_no_persist
    (store : StoreEnv) (bp : JVal) (kvs : List (String × JVal)) (sbp dbp hr : JVal)
    (hbp : bp.truthy = true)
    (hst : pyGet bp "status" = Except.ok (JVal.str "success"))
    (hv : pyGetD bp "values" (JVal.obj []) = Except.ok (JVal.obj kvs))
    (hs : pyGet (JVal.obj kvs) "SBP" = Except.ok sbp)
    (hd : pyGet (JVal.obj kvs) "DBP" = Except.ok dbp)
    (hh : pyGet (JVal.obj kvs) "HR" = Except.ok hr)
    (hmiss : sbp.isNull = true ∨ dbp.isNull = true ∨ hr.isNull = true) :
    (reconcile store bp).reply = incompleteText sbp dbp hr ∧
    (reconcile store bp).saveArgs = [] ∧
    (reconcile store bp).saved = [] ∧
    strContains (reconcile store bp).reply "N/A" ∧
    strContains (reconcile store bp).reply notSavedMissingNote := by
  have hcond : (!sbp.isNull && !dbp.isNull && !hr.isNull) = false := by
    rcases hmiss with hm | hm | hm <;> simp [hm]
  have hrec : reconcile store bp = ⟨incompleteText sbp dbp hr, [], []⟩ := by
    simp [reconcile, reconcileTry, hbp, hst, hv, hs, hd, hh, pyEqStr, hcond]
  rw [hrec]
  refine ⟨rfl, rfl, rfl, ?_, ?_⟩
  · rcases hmiss with hm | hm | hm
    · exact strContains_of_data_split _ _
        ("🟡 **Partial Reading Extracted**\n\n🩺 **Systolic (SBP):** " : String).data
        (("\n❤️ **Diastolic (DBP):** " : String).data ++ (naText dbp).data ++
          ("\n💓 **Heart Rate (HR):** " : String).data ++ (naText hr).data ++
          ("\n\n" : String).data ++ notSavedMissingNote.data)
        (by simp [incompleteText, naText, hm, String.data_append])
    · exact strContains_of_data_split _ _
        (("🟡 **Partial Reading Extracted**\n\n🩺 **Systolic (SBP):** " : String).data ++
          (naText sbp).data ++ ("\n❤️ **Diastolic (DBP):** " : String).data)
        (("\n💓 **Heart Rate (HR):** " : String).data ++ (naText hr).data ++
          ("\n\n" : String).data ++ notSavedMissingNote.data)
        (by simp [incompleteText, naText, hm, String.data_append])
    · exact strContains_of_data_split _ _
        (("🟡 **Partial Reading Extracted**\n\n🩺 **Systolic (SBP):** " : String).data ++
          (naText sbp).data ++ ("\n❤️ **Diastolic (DBP):** " : String).data ++
          (naText dbp).data ++ ("\n💓 **Heart Rate (HR):** " : String).data)
        (("\n\n" : String).data ++ notSavedMissingNote.data)
        (by simp [incompleteText, naText, hm, String.data_append])
  · exact strContains_of_split _
      ("🟡 **Partial Reading Extracted**\n\n🩺 **Systolic (SBP):** " ++ naText sbp ++
        "\n❤️ **Diastolic (DBP):** " ++ naText dbp ++ "\n💓 **Heart Rate (HR):** " ++
        naText hr ++ "\n\n") _
      ""
      (by simp [incompleteText, String.append_assoc, String.append_empty])

/-- Witness for C2 at the concrete result with DBP null. -/
theorem c2_witness :
    (reconcile ⟨true, true⟩
        (JVal.obj [("values", JVal.obj [("SBP", JVal.num 120), ("DBP", JVal.null),
          ("HR", JVal.num 70)]), ("status", JVal.str "success")])).reply
      = incompleteText (JVal.num 120) JVal.null (JVal.num 70) ∧
    (reconcile ⟨true, true⟩
        (JVal.obj [("values", JVal.obj [("SBP", JVal.num 120), ("DBP", JVal.null),
          ("HR", JVal.num 70)]), ("status", JVal.str "success")])).saveArgs = [] ∧
    (reconcile ⟨true, true⟩
        (JVal.obj [("values", JVal.obj [("SBP", JVal.num 120), ("DBP", JVal.null),
          ("HR", JVal.num 70)]), ("status", JVal.str "success")])).saved = [] ∧
    strContains (reconcile ⟨true, true⟩
        (JVal.obj [("values", JVal.obj [("SBP", JVal.num 120), ("DBP", JVal.null),
          ("HR", JVal.num 70)]), ("status", JVal.str "success")])).reply "N/A" ∧
    strContains (reconcile ⟨true, true⟩
        (JVal.obj [("values", JVal.obj [("SBP", JVal.num 120), ("DBP", JVal.null),
          ("HR", JVal.num 70)]), ("status", JVal.str "success")])).reply
        notSavedMissingNote :=
  c2_partial_no_persist ⟨true, true⟩ _ _ _ _ _
    rfl rfl rfl rfl rfl rfl (Or.inr (Or.inl rfl))

/-- C3 counterexample: the claim says a response failing both parses leads
to a reply containing a request for a clearer image.  At a concrete
garbage response whose tolerant parse raises, the extraction client
returns the error marker, which has no status key, so the handler takes
the generic fallback: the reply embeds the error marker and contains no
clearer-image request at all. -/
theorem c3_cex_no_clearer_image_request :
    (image_handler
        ⟨7, true, ⟨true, ModelOutcome.ok "garbage"⟩,
          fun _ => Except.error PyExc.jsonError, ⟨true, true⟩⟩
        ⟨7, true⟩).replySent
      = [genericText errorMarker] ∧
    ¬ strContains (genericText errorMarker) "clearer" ∧
    (image_handler
        ⟨7, true, ⟨true, ModelOutcome.ok "garbage"⟩,
          fun _ => Except.error PyExc.jsonError, ⟨true, true⟩⟩
        ⟨7, true⟩).saved = [] :=
  ⟨rfl, by decide, rfl⟩

/-- C3 (amended): for every model response text whose tolerant repairing
parse raises, the extraction client returns the fixed error-marker
dictionary and the pipeline resolves to the generic Failed/Unknown
fallback: the reply is the generic apology embedding the error marker
(not a clearer-image request), and nothing is persisted. -/
theorem c3_parse_failure_generic_reply
    (env : HandlerEnv) (ev : UpdateEv) (text : String) (e : PyExc)
    (hauth : ev.chatId = env.authorizedId)
    (hphoto : ev.hasPhoto = true)
    (hdl : env.downloadOk = true)
    (hdec : env.image.decodable = true)
    (hout : env.image.outcome = ModelOutcome.ok text)
    (hparse : env.jsonRepairLoads (cleanResponse text) = Except.error e) :
    (image_handler env ev).replySent = [genericText errorMarker] ∧
    (image_handler env ev).saveArgs = [] ∧
    (image_handler env ev).saved = [] := by
  have hbp : get_bp_from_image env.image env.jsonRepairLoads
      = Except.ok errorMarker := by
    simp [get_bp_from_image, hdec, hout, hparse]
  have hrec : reconcile env.store errorMarker
      = ⟨genericText errorMarker, [], []⟩ := rfl
  refine ⟨?_, ?_, ?_⟩ <;> simp [image_handler, hauth, hphoto, hdl, hbp, hrec]

/-- Witness for C3 (amended) at a concrete garbage response. -/
theorem c3_witness :
    (image_handler
        ⟨3, true, ⟨true, ModelOutcome.ok "noise"⟩,
          fun _ => Except.error PyExc.jsonError, ⟨true, true⟩⟩
        ⟨3, true⟩).replySent
      = [genericText errorMarker] ∧
    (image_handler
        ⟨3, true, ⟨true, ModelOutcome.ok "noise"⟩,
          fun _ => Except.error PyExc.jsonError, ⟨true, true⟩⟩
        ⟨3, true⟩).saveArgs = [] ∧
    (image_handler
        ⟨3, true, ⟨true, ModelOutcome.ok "noise"⟩,
          fun _ => Except.error PyExc.jsonError, ⟨true, true⟩⟩
        ⟨3, true⟩).saved = [] :=
  c3_parse_failure_generic_reply _ _ "noise" PyExc.jsonError
    rfl rfl rfl rfl rfl rfl

/-- C6: for a Complete-state result (status success, all three fields
present integers) whose persistence call returns false, the reply is
still the Complete-path message listing the three values, but with the
explicit not-saved note instead of the saved note, and nothing was
written. -/
theorem c6_failed_save_keeps_complete_reply_with_not_saved_note
    (store : StoreEnv) (bp values : JVal) (s d h : Int)
    (hbp : bp.truthy = true)
    (hst : pyGet bp "status" = Except.ok (JVal.str "success"))
    (hv : pyGetD bp "values" (JVal.obj []) = Except.ok values)
    (hs : pyGet values "SBP" = Except.ok (JVal.num s))
    (hd : pyGet values "DBP" = Except.ok (JVal.num d))
    (hh : pyGet values "HR" = Except.ok (JVal.num h))
    (hfail : (save_reading_to_firestore store
        (JVal.num s) (JVal.num d) (JVal.num h)).1 = false) :
    (reconcile store bp).reply
      = completeText (JVal.num s) (JVal.num d) (JVal.num h) ++ notSavedNote ∧
    (reconcile store bp).saved = [] := by
  have hrec : reconcile store bp
      = completeBranch store (JVal.num s) (JVal.num d) (JVal.num h) := by
    simp [reconcile, reconcileTry, hbp, hst, hv, hs, hd, hh, pyEqStr, JVal.isNull]
  rw [hrec]
  refine ⟨?_, ?_⟩
  · simp [completeBranch, hfail]
  · simpa [completeBranch] using
      save_false_writes_nothing store (JVal.num s) (JVal.num d) (JVal.num h) hfail

/-- Witness for C6 with an unavailable store client. -/
theorem c6_witness :
    (reconcile ⟨false, true⟩
        (JVal.obj [("values", JVal.obj [("SBP", JVal.num 120), ("DBP", JVal.num 80),
          ("HR", JVal.num 70)]), ("status", JVal.str "success")])).reply
      = completeText (JVal.num 120) (JVal.num 80) (JVal.num 70) ++ notSavedNote ∧
    (reconcile ⟨false, true⟩
        (JVal.obj [("values", JVal.obj [("SBP", JVal.num 120), ("DBP", JVal.num 80),
          ("HR", JVal.num 70)]), ("status", JVal.str "success")])).saved = [] :=
  c6_failed_save_keeps_complete_reply_with_not_saved_note ⟨false, true⟩ _ _ 120 80 70
    rfl rfl rfl rfl rfl rfl rfl

/-- C9 counterexample: the claim says every authorized photo event that
reaches the pipeline produces exactly one reply even on internal
exception.  When the photo download raises (it runs before the try block,
main.py lines 136-139), the handler sends no final reply at all — only
the progress acknowledgment went out — and the exception escapes to the
framework. -/
theorem c9_cex_download_failure_leaves_unanswered :
    (image_handler
        ⟨7, false, ⟨true, ModelOutcome.callError⟩,
          fun _ => Except.ok JVal.null, ⟨true, true⟩⟩
        ⟨7, true⟩).replySent = [] ∧
    (image_handler
        ⟨7, false, ⟨true, ModelOutcome.callError⟩,
          fun _ => Except.ok JVal.null, ⟨true, true⟩⟩
        ⟨7, true⟩).raised = some PyExc.networkError :=
  ⟨rfl, rfl⟩

/-- C9 (amended): for an authorized photo event whose download succeeds
and whose bytes decode, the handler sends the progress acknowledgment and
then exactly one final reply, and no exception escapes — whatever the
model response, parse outcome or store state (the reconciliation except
clause substitutes diagnostic text on internal failure).  If the download
or the image decode raises, the event instead gets no final reply and the
exception escapes. -/
theorem c9_exactly_one_final_reply_when_pipeline_runs
    (env : HandlerEnv) (ev : UpdateEv)
    (hauth : ev.chatId = env.authorizedId)
    (hphoto : ev.hasPhoto = true)
    (hdl : env.downloadOk = true)
    (hdec : env.image.decodable = true) :
    (image_handler env ev).preSent = [processingText] ∧
    (image_handler env ev).replySent.length = 1 ∧
    (image_handler env ev).raised = none := by
  obtain ⟨v, hv⟩ := getBp_ok_of_decodable env.image env.jsonRepairLoads hdec
  refine ⟨?_, ?_, ?_⟩ <;> simp [image_handler, hauth, hphoto, hdl, hv]

/-- Witness for C9 (amended) at a concrete successful pipeline run. -/
theorem c9_witness :
    (image_handler
        ⟨9, true, ⟨true, ModelOutcome.ok "resp"⟩,
          fun _ => Except.ok JVal.null, ⟨true, true⟩⟩
        ⟨9, true⟩).preSent = [processingText] ∧
    (image_handler
        ⟨9, true, ⟨true, ModelOutcome.ok "resp"⟩,
          fun _ => Except.ok JVal.null, ⟨true, true⟩⟩
        ⟨9, true⟩).replySent.length = 1 ∧
    (image_handler
        ⟨9, true, ⟨true, ModelOutcome.ok "resp"⟩,
          fun _ => Except.ok JVal.null, ⟨true, true⟩⟩
        ⟨9, true⟩).raised = none :=
  c9_exactly_one_final_reply_when_pipeline_runs _ _ rfl rfl rfl rfl
